import Mathlib

/-!
Verification development for a multi-tenant RAG document question-answering
application.  The front-end layer (API client, chat page, chat input, file
upload widget) is embedded from its JavaScript/JSX source; the retrieval core
(text segmenter, tenant vector store, query orchestrator), whose source is
not part of this tree, is modelled from the specification.
-/

/- ### Data carried by API requests -/

/-- A file value as seen by the upload components: name, MIME type, byte size. -/
structure FileData where
  name : String
  type : String
  size : Nat
deriving DecidableEq, Repr

/-- The `files` argument of `uploadDocument` in `api.js`: the caller may pass a
single file or an array of files (`Array.isArray` branch). -/
inductive FilesArg
  | one (f : FileData)
  | many (fs : List FileData)
deriving DecidableEq, Repr

/-- The backend endpoint addressed by a request (the URL path built in
`api.js`, with the delete path carrying the document filename). -/
inductive Endpoint
  | tenantStats
  | uploadFiles
  | query
  | tenantDocuments
  | deleteDocumentOf (filename : String)
  | health
deriving DecidableEq, Repr

/-- Request body: the JSON body of `/query` or the multipart form of
`/upload-files`; GET/DELETE requests carry none. -/
inductive ReqBody
  | queryBody (question : String) (top_k : Nat)
  | uploadBody (files : List FileData)
deriving DecidableEq, Repr

/-- An HTTP request as assembled by the axios client in `api.js`. -/
structure ApiRequest where
  method : String
  url : Endpoint
  headers : List (String × String)
  body : Option ReqBody
deriving DecidableEq, Repr

/-- Value of a named header on a request (first match, as a header map). -/
def headerValue (req : ApiRequest) (name : String) : Option String :=
  (req.headers.find? (fun p => p.1 = name)).map (fun p => p.2)

/-- Outcome of one axios call: it resolves with response data, or throws with
an optional `error.response.data.detail` string. -/
inductive Outcome (α : Type)
  | ok (data : α)
  | err (detail : Option String)

/-- The value every exported function of `api.js` resolves to:
`{success: true, data}` or `{success: false, error}`. -/
inductive ApiResult (α : Type)
  | ok (data : α)
  | fail (error : String)
deriving DecidableEq, Repr

/-- The boolean `success` field of an API result. -/
def ApiResult.success {α : Type} : ApiResult α → Bool
  | .ok _ => true
  | .fail _ => false

/- ### The exported API-client functions (`src/frontend/src/services/api.js`)

Each function is split into the request it hands to axios and the wrapper
that turns the axios outcome into an `ApiResult`.  The axios instance adds a
default `Content-Type: application/json` header; per-call headers are merged
on top of it. -/

/-- Request of `validateTenant`: GET `/tenant/stats` with `X-Tenant-ID`. -/
def validateTenantRequest (tenantId : String) : ApiRequest :=
  { method := "GET", url := .tenantStats,
    headers := [("Content-Type", "application/json"), ("X-Tenant-ID", tenantId)],
    body := none }

/-- `validateTenant` from `api.js`. -/
def validateTenant {α : Type} (tenantId : String)
    (backend : ApiRequest → Outcome α) : ApiResult α :=
  match backend (validateTenantRequest tenantId) with
  | .ok d => .ok d
  | .err detail => .fail (detail.getD "Invalid organization key")

/-- The FormData file list of `uploadDocument`: each file of an array is
appended, a single file is appended alone. -/
def uploadFormFiles : FilesArg → List FileData
  | .one f => [f]
  | .many fs => fs

/-- Request of `uploadDocument`: POST `/upload-files`, multipart, with
`X-Tenant-ID`. -/
def uploadDocumentRequest (tenantId : String) (files : FilesArg) : ApiRequest :=
  { method := "POST", url := .uploadFiles,
    headers := [("Content-Type", "multipart/form-data"), ("X-Tenant-ID", tenantId)],
    body := some (.uploadBody (uploadFormFiles files)) }

/-- `uploadDocument` from `api.js`. -/
def uploadDocument {α : Type} (tenantId : String) (files : FilesArg)
    (backend : ApiRequest → Outcome α) : ApiResult α :=
  match backend (uploadDocumentRequest tenantId files) with
  | .ok d => .ok d
  | .err detail => .fail (detail.getD "Failed to upload document")

/-- Request of `sendQuery`: POST `/query` with body `{question, top_k}` and
`X-Tenant-ID`.  The JS signature is `sendQuery(tenantId, question, topK = 5)`:
an omitted third argument is `none` and defaults to 5. -/
def sendQueryRequest (tenantId question : String) (topK? : Option Nat) : ApiRequest :=
  { method := "POST", url := .query,
    headers := [("Content-Type", "application/json"), ("X-Tenant-ID", tenantId)],
    body := some (.queryBody question (topK?.getD 5)) }

/-- `sendQuery` from `api.js`. -/
def sendQuery {α : Type} (tenantId question : String) (topK? : Option Nat)
    (backend : ApiRequest → Outcome α) : ApiResult α :=
  match backend (sendQueryRequest tenantId question topK?) with
  | .ok d => .ok d
  | .err detail => .fail (detail.getD "Failed to process query")

/-- Request of `getTenantStats`: GET `/tenant/stats` with `X-Tenant-ID`. -/
def getTenantStatsRequest (tenantId : String) : ApiRequest :=
  { method := "GET", url := .tenantStats,
    headers := [("Content-Type", "application/json"), ("X-Tenant-ID", tenantId)],
    body := none }

/-- `getTenantStats` from `api.js`. -/
def getTenantStats {α : Type} (tenantId : String)
    (backend : ApiRequest → Outcome α) : ApiResult α :=
  match backend (getTenantStatsRequest tenantId) with
  | .ok d => .ok d
  | .err detail => .fail (detail.getD "Failed to get statistics")

/-- Request of `getTenantDocuments`: GET `/tenant/documents` with
`X-Tenant-ID`. -/
def getTenantDocumentsRequest (tenantId : String) : ApiRequest :=
  { method := "GET", url := .tenantDocuments,
    headers := [("Content-Type", "application/json"), ("X-Tenant-ID", tenantId)],
    body := none }

/-- `getTenantDocuments` from `api.js`. -/
def getTenantDocuments {α : Type} (tenantId : String)
    (backend : ApiRequest → Outcome α) : ApiResult α :=
  match backend (getTenantDocumentsRequest tenantId) with
  | .ok d => .ok d
  | .err detail => .fail (detail.getD "Failed to get documents")

/-- Request of `deleteTenantDocument`: DELETE `/tenant/documents/{filename}`
with `X-Tenant-ID`. -/
def deleteTenantDocumentRequest (tenantId filename : String) : ApiRequest :=
  { method := "DELETE", url := .deleteDocumentOf filename,
    headers := [("Content-Type", "application/json"), ("X-Tenant-ID", tenantId)],
    body := none }

/-- `deleteTenantDocument` from `api.js`. -/
def deleteTenantDocument {α : Type} (tenantId filename : String)
    (backend : ApiRequest → Outcome α) : ApiResult α :=
  match backend (deleteTenantDocumentRequest tenantId filename) with
  | .ok d => .ok d
  | .err detail => .fail (detail.getD "Failed to delete document")

/-- Request of `healthCheck`: GET `/health`, no tenant header. -/
def healthCheckRequest : ApiRequest :=
  { method := "GET", url := .health,
    headers := [("Content-Type", "application/json")],
    body := none }

/-- `healthCheck` from `api.js`: on failure the error string is the fixed
message, the thrown detail is not consulted. -/
def healthCheck {α : Type} (backend : ApiRequest → Outcome α) : ApiResult α :=
  match backend healthCheckRequest with
  | .ok d => .ok d
  | .err _ => .fail "API is unavailable"

/- ### Chat message rendering (`src/frontend/src/components/ChatMessage.jsx`) -/

/-- The `metadata` object of a source as the chat UI receives it: the
rendered name comes from `source.metadata?.filename`; the stored-record
metadata also carries the chunk index. -/
structure UIMeta where
  filename : Option String
  chunk_index : Nat
deriving DecidableEq, Repr

/-- A retrieved source as the chat UI receives it: `source.text`,
`source.score` and `source.metadata`. -/
structure UISource where
  text : String
  score : Int
  metadata : UIMeta
deriving DecidableEq, Repr

/-- The visible parts of one rendered source item in `ChatMessage`. -/
structure RenderedSource where
  name : String
  matchMeta : String
  titleText : String
deriving DecidableEq, Repr

/-- One source row of the sources list in `ChatMessage.jsx`: the name is
`source.metadata?.filename` or a positional fallback, the meta text shows the
score as a percentage, the tooltip shows the chunk text. -/
def renderSourceItem (source : UISource) (index : Nat) : RenderedSource :=
  { name := source.metadata.filename.getD ("Source " ++ toString (index + 1)),
    matchMeta := toString (source.score * 100) ++ "% match",
    titleText := source.text }

/- ### Chat page state (`src/frontend/src/pages/Chat.jsx`) -/

/-- Message role as stored in the chat history. -/
inductive Role
  | user
  | assistant
deriving DecidableEq, Repr

/-- One chat-history message; assistant replies to successful queries carry a
`sources` field, user messages and error messages do not. -/
structure ChatMsg where
  role : Role
  content : String
  sources : Option (List UISource)
deriving DecidableEq, Repr

/-- The `messages` state of the chat page: chat history keyed by workspace. -/
def Msgs : Type := String → Option (List ChatMsg)

/-- The response data of a successful `/query` call as read by the chat page:
`result.data.answer` and `result.data.sources`. -/
structure QueryRespData where
  answer : String
  sources : List UISource
deriving DecidableEq, Repr

/-- A workspace entry of the chat page (`{id, createdAt}`). -/
structure Workspace where
  id : String
  createdAt : String
deriving DecidableEq, Repr

/-- `updateMessages` of `Chat.jsx`: store a new message list under one
workspace key, leaving every other key of the map as it was. -/
def updateMessages (messages : Msgs) (workspaceId : String)
    (newMessages : List ChatMsg) : Msgs :=
  fun k => if k = workspaceId then some newMessages else messages k

/-- `handleSendMessage` of `Chat.jsx`: append the user message, send the query
with the active workspace as tenant and `top_k = 10`, then append either the
assistant answer (with its sources) or an error message prefixed with
`❌ Error: `.  Returns the final `messages` state. -/
def handleSendMessage (activeWorkspace : Option String) (messages : Msgs)
    (question : String) (backend : ApiRequest → Outcome QueryRespData) : Msgs :=
  match activeWorkspace with
  | none => messages
  | some ws =>
    let currentMessages := (messages ws).getD []
    let userMessage : ChatMsg := ⟨.user, question, none⟩
    let afterUser := updateMessages messages ws (currentMessages ++ [userMessage])
    match sendQuery ws question (some 10) backend with
    | .ok d =>
      let assistantMessage : ChatMsg := ⟨.assistant, d.answer, some d.sources⟩
      updateMessages afterUser ws (currentMessages ++ [userMessage, assistantMessage])
    | .fail e =>
      let errorMessage : ChatMsg := ⟨.assistant, "❌ Error: " ++ e, none⟩
      updateMessages afterUser ws (currentMessages ++ [userMessage, errorMessage])

/-- The pieces of chat-page state touched by `handleDeleteWorkspace`. -/
structure ChatState where
  workspaces : List Workspace
  messages : Msgs
  activeWorkspace : Option String

/-- `handleDeleteWorkspace` of `Chat.jsx`: drop the workspace from the list,
delete its chat history key, and if the deleted workspace was active switch
to the first remaining one. -/
def handleDeleteWorkspace (st : ChatState) (workspaceId : String) : ChatState :=
  let updatedWorkspaces := st.workspaces.filter (fun w => w.id ≠ workspaceId)
  let updatedMessages : Msgs :=
    fun k => if k = workspaceId then none else st.messages k
  let newActive :=
    match st.activeWorkspace, updatedWorkspaces with
    | some a, w :: _ => if a = workspaceId then some w.id else st.activeWorkspace
    | _, _ => st.activeWorkspace
  { workspaces := updatedWorkspaces, messages := updatedMessages,
    activeWorkspace := newActive }

/- ### Character-level string operations (kernel-computable models of the JS
string methods used by the UI layer) -/

/-- Leading and trailing whitespace removed from a character list (the JS
`String.prototype.trim`). -/
def trimChars (l : List Char) : List Char :=
  ((l.dropWhile Char.isWhitespace).reverse.dropWhile Char.isWhitespace).reverse

/-- JS `String.prototype.trim` over a Lean string, through its character
list. -/
def jsTrim (s : String) : String :=
  ⟨trimChars s.data⟩

/-- JS `String.prototype.endsWith` over Lean strings, through their character
lists. -/
def jsEndsWith (s suffix : String) : Bool :=
  suffix.data.isSuffixOf s.data

/- ### Chat input (`src/frontend/src/components/ChatInput.jsx`) -/

/-- `handleSubmit` of `ChatInput.jsx`: the send callback fires with the
trimmed input exactly when the trimmed input is non-empty (JS string
truthiness of `input.trim()`) and the input is not disabled; the returned
value is the string passed to `onSend`, `none` when nothing is sent. -/
def chatInputSubmit (input : String) (disabled : Bool) : Option String :=
  if jsTrim input ≠ "" && !disabled then some (jsTrim input) else none

/- ### File upload (`src/frontend/src/components/FileUpload.jsx` and the
compact variant) -/

/-- What the upload handler does with a change event: nothing (no file
selected), show a validation message without any network call, or invoke
`uploadDocument` with the tenant and the file. -/
inductive UploadAction
  | nothing
  | reject (msg : String)
  | upload (tenantId : String) (file : FileData)
deriving DecidableEq, Repr

/-- `handleFileChange` of `FileUpload.jsx` (sidebar version): validate type
(`application/pdf` MIME or `.pdf` name), then size (max 10MB), then the
presence of a workspace, before calling `uploadDocument`. -/
def handleFileChange (file? : Option FileData) (tenantId : String) : UploadAction :=
  match file? with
  | none => .nothing
  | some file =>
    if !(decide (file.type = "application/pdf") || jsEndsWith file.name ".pdf") then
      .reject "❌ Please select a PDF file"
    else if file.size > 10 * 1024 * 1024 then
      .reject "❌ File size must be less than 10MB"
    else if tenantId = "" then
      .reject "❌ No workspace selected"
    else
      .upload tenantId file

/-- `handleFileChange` of the compact `FileUpload` variant: same type and
size validation with shorter messages, no tenant check in the handler body
(the input is disabled without a tenant). -/
def handleFileChangeCompact (file? : Option FileData) (tenantId : String) : UploadAction :=
  match file? with
  | none => .nothing
  | some file =>
    if !(decide (file.type = "application/pdf") || jsEndsWith file.name ".pdf") then
      .reject "❌ Select a PDF"
    else if file.size > 10 * 1024 * 1024 then
      .reject "❌ Max 10MB"
    else
      .upload tenantId file

/- ### Tenant vector store and query orchestrator, modelled from the spec
(the backend source is not part of this tree). -/

/-- Modelled from the spec: a stored vector record of the TenantVectorStore —
`(tenant namespace, chunk id, vector, metadata = {filename, chunk_index,
text})`.  Similarity is kept abstract through a scoring function parameter. -/
structure StoredRecord where
  tenant : String
  id : String
  vector : List Int
  filename : String
  chunkIndex : Nat
  text : String
deriving DecidableEq, Repr

/-- Modelled from the spec: insertion of a scored record into a
descending-score list, keeping the order. -/
def insertByScore (p : StoredRecord × Int) :
    List (StoredRecord × Int) → List (StoredRecord × Int)
  | [] => [p]
  | q :: rest => if q.2 ≤ p.2 then p :: q :: rest else q :: insertByScore p rest

/-- Modelled from the spec: scored records sorted by descending similarity
score (insertion sort). -/
def sortByScoreDesc : List (StoredRecord × Int) → List (StoredRecord × Int)
  | [] => []
  | p :: rest => insertByScore p (sortByScoreDesc rest)

/-- Modelled from the spec: `search(tenant, queryVector, k)` of the
TenantVectorStore — up to `k` records of that tenant's namespace only,
ordered by descending similarity score; empty when the namespace has no
records. -/
def searchTenant (store : List StoredRecord) (tenant : String)
    (queryVector : List Int) (k : Nat)
    (sim : List Int → List Int → Int) : List (StoredRecord × Int) :=
  let scored := (store.filter (fun r => r.tenant = tenant)).map
    (fun r => (r, sim queryVector r.vector))
  (sortByScoreDesc scored).take k

/-- Modelled from the spec: the number of records stored in one tenant's
namespace (`countAndListFilenames`'s record count). -/
def tenantCount (store : List StoredRecord) (tenant : String) : Nat :=
  (store.filter (fun r => r.tenant = tenant)).length

/-- Modelled from the spec: one source of a query response —
`{text, filename, chunkIndex, score}`. -/
structure QuerySource where
  text : String
  filename : String
  chunkIndex : Nat
  score : Int
deriving DecidableEq, Repr

/-- Modelled from the spec: the query response,
`{answer, sources[{text, filename, chunkIndex, score}]}`. -/
structure QueryResponse where
  answer : String
  sources : List QuerySource
deriving DecidableEq, Repr

/-- Modelled from the spec: the canned answer returned when retrieval finds
no relevant documents. -/
def noDataAnswer : String := "No relevant documents found."

/-- Modelled from the spec: retrieved chunk texts concatenated in
descending-score order into a context block. -/
def buildContext (results : List (StoredRecord × Int)) : String :=
  String.intercalate "\n\n" (results.map (fun p => p.1.text))

/-- Modelled from the spec: the prompt instructing the model to answer only
from the supplied context. -/
def buildPrompt (context question : String) : String :=
  "Answer using only the supplied context. If the answer is not contained in it, say so explicitly.\n\nContext:\n"
    ++ context ++ "\n\nQuestion: " ++ question

/-- Modelled from the spec: the RetrievalOrchestrator query operation — embed
the question (the query vector is a parameter), search the tenant namespace,
and either return the canned no-data answer with an empty source list without
generating, or generate from the assembled prompt and return the answer with
the full retrieved source list. -/
def queryOp (store : List StoredRecord) (tenant question : String)
    (queryVector : List Int) (k : Nat)
    (sim : List Int → List Int → Int)
    (generate : String → String) : QueryResponse :=
  let results := searchTenant store tenant queryVector k sim
  if results.isEmpty then
    { answer := noDataAnswer, sources := [] }
  else
    { answer := generate (buildPrompt (buildContext results) question),
      sources := results.map (fun p => ⟨p.1.text, p.1.filename, p.1.chunkIndex, p.2⟩) }

/-- Modelled from the spec: the configured maximum of `top_k` (`MAX_TOP_K`). -/
def MAX_TOP_K : Nat := 20

/- ### TextSegmenter, modelled from the spec (the backend source is not part
of this tree).  Text is a list of characters; chunks are lists of
characters. -/

/-- Modelled from the spec: sentence-ending punctuation, one of `. ! ?`. -/
def isSentEnd (c : Char) : Bool :=
  c = '.' || c = '!' || c = '?'

/-- Backward search: largest index `i < n` satisfying `p`, scanning from the
end toward the start. -/
def findBackFrom (p : Nat → Bool) : Nat → Option Nat
  | 0 => none
  | n + 1 => if p n then some n else findBackFrom p n

/-- Modelled from the spec: backward search from the window's end for the
nearest sentence-ending punctuation followed by whitespace, ignoring
positions within the first `overlap` characters of the window. -/
def sentCut (rem : List Char) (maxLen overlap : Nat) : Option Nat :=
  findBackFrom
    (fun i => decide (overlap ≤ i) && isSentEnd (rem.getD i ' ')
      && (rem.getD (i + 1) 'x').isWhitespace) maxLen

/-- Modelled from the spec: backward search for the nearest whitespace
character within the window. -/
def wsCut (rem : List Char) (maxLen : Nat) : Option Nat :=
  findBackFrom (fun i => (rem.getD i 'x').isWhitespace) maxLen

/-- Modelled from the spec: the accepted cut point of the current window —
after a qualifying sentence boundary, else after the nearest whitespace,
else the raw `maxLen` cut. -/
def cutPoint (rem : List Char) (maxLen overlap : Nat) : Nat :=
  match sentCut rem maxLen overlap with
  | some i => i + 1
  | none =>
    match wsCut rem maxLen with
    | some i => i + 1
    | none => maxLen

/-- Modelled from the spec: the segmentation loop of the TextSegmenter over
the remaining text — when at most `maxLen` characters remain, the trimmed
remainder is the final chunk (dropped when empty); otherwise the window up
to the cut point is emitted trimmed and the cursor advances to
`cutPoint - overlap`, clamped to move forward by at least one character. -/
def segmentGo (maxLen overlap : Nat) (rem : List Char) : List (List Char) :=
  if _h : rem.length ≤ maxLen then
    if (trimChars rem).isEmpty then [] else [trimChars rem]
  else
    trimChars (rem.take (cutPoint rem maxLen overlap)) ::
      segmentGo maxLen overlap (rem.drop (max 1 (cutPoint rem maxLen overlap - overlap)))
termination_by rem.length
decreasing_by
  simp only [List.length_drop]
  omega

/-- Modelled from the spec: `segment(text, maxLen, overlap)` of the
TextSegmenter; a configuration with `overlap ≥ maxLen` is rejected. -/
def segmentText (text : List Char) (maxLen overlap : Nat) : Option (List (List Char)) :=
  if overlap < maxLen then some (segmentGo maxLen overlap text) else none

/- ### Helper lemmas -/

/-- An `ApiResult` is either `{success: true, data}` or `{success: false,
error}`. -/
def successShaped {α : Type} (r : ApiResult α) : Prop :=
  (r.success = true ∧ ∃ d, r = .ok d) ∨ (r.success = false ∧ ∃ e, r = .fail e)

theorem successShaped_all {α : Type} (r : ApiResult α) : successShaped r := by
  cases r with
  | ok d => exact Or.inl ⟨rfl, d, rfl⟩
  | fail e => exact Or.inr ⟨rfl, e, rfl⟩

/- ### C1 -/

/-- C1: every tenant-scoped API-client operation (validateTenant,
uploadDocument, sendQuery, getTenantStats, getTenantDocuments,
deleteTenantDocument) sends its HTTP request with the `X-Tenant-ID` header
equal to exactly the tenant key passed by the caller for that call; no
request carries any other namespace. -/
theorem api_requests_carry_exact_tenant_header
    (t question filename : String) (files : FilesArg) (topK? : Option Nat) :
    headerValue (validateTenantRequest t) "X-Tenant-ID" = some t ∧
    headerValue (uploadDocumentRequest t files) "X-Tenant-ID" = some t ∧
    headerValue (sendQueryRequest t question topK?) "X-Tenant-ID" = some t ∧
    headerValue (getTenantStatsRequest t) "X-Tenant-ID" = some t ∧
    headerValue (getTenantDocumentsRequest t) "X-Tenant-ID" = some t ∧
    headerValue (deleteTenantDocumentRequest t filename) "X-Tenant-ID" = some t := by
  refine ⟨?_, ?_, ?_, ?_, ?_, ?_⟩ <;> rfl

/- ### C10 -/

/-- C10: every exported API-client function resolves to a result with a
boolean `success` field — `{success: true, data}` on success and
`{success: false, error}` on failure — never rejecting; the error string is
the thrown backend detail when present, and each function's fixed default
message when the failure carries no detail (healthCheck always uses its
fixed message). -/
theorem api_results_success_shaped_with_default_errors {α : Type}
    (t question filename s : String) (files : FilesArg) (topK? : Option Nat)
    (backend : ApiRequest → Outcome α) (d : α) :
    successShaped (validateTenant t backend) ∧
    successShaped (uploadDocument t files backend) ∧
    successShaped (sendQuery t question topK? backend) ∧
    successShaped (getTenantStats t backend) ∧
    successShaped (getTenantDocuments t backend) ∧
    successShaped (deleteTenantDocument t filename backend) ∧
    successShaped (healthCheck backend) ∧
    validateTenant t (fun _ => Outcome.ok d) = .ok d ∧
    uploadDocument t files (fun _ => Outcome.ok d) = .ok d ∧
    sendQuery t question topK? (fun _ => Outcome.ok d) = .ok d ∧
    getTenantStats t (fun _ => Outcome.ok d) = .ok d ∧
    getTenantDocuments t (fun _ => Outcome.ok d) = .ok d ∧
    deleteTenantDocument t filename (fun _ => Outcome.ok d) = .ok d ∧
    healthCheck (fun _ => Outcome.ok d) = .ok d ∧
    validateTenant t (fun _ => (Outcome.err none : Outcome α)) =
      .fail "Invalid organization key" ∧
    uploadDocument t files (fun _ => (Outcome.err none : Outcome α)) =
      .fail "Failed to upload document" ∧
    sendQuery t question topK? (fun _ => (Outcome.err none : Outcome α)) =
      .fail "Failed to process query" ∧
    getTenantStats t (fun _ => (Outcome.err none : Outcome α)) =
      .fail "Failed to get statistics" ∧
    getTenantDocuments t (fun _ => (Outcome.err none : Outcome α)) =
      .fail "Failed to get documents" ∧
    deleteTenantDocument t filename (fun _ => (Outcome.err none : Outcome α)) =
      .fail "Failed to delete document" ∧
    healthCheck (fun _ => (Outcome.err none : Outcome α)) =
      .fail "API is unavailable" ∧
    validateTenant t (fun _ => (Outcome.err (some s) : Outcome α)) = .fail s ∧
    uploadDocument t files (fun _ => (Outcome.err (some s) : Outcome α)) = .fail s ∧
    sendQuery t question topK? (fun _ => (Outcome.err (some s) : Outcome α)) = .fail s ∧
    getTenantStats t (fun _ => (Outcome.err (some s) : Outcome α)) = .fail s ∧
    getTenantDocuments t (fun _ => (Outcome.err (some s) : Outcome α)) = .fail s ∧
    deleteTenantDocument t filename (fun _ => (Outcome.err (some s) : Outcome α)) = .fail s ∧
    healthCheck (fun _ => (Outcome.err (some s) : Outcome α)) =
      .fail "API is unavailable" :=
  ⟨successShaped_all _, successShaped_all _, successShaped_all _,
   successShaped_all _, successShaped_all _, successShaped_all _,
   successShaped_all _, rfl, rfl, rfl, rfl, rfl, rfl, rfl, rfl, rfl, rfl,
   rfl, rfl, rfl, rfl, rfl, rfl, rfl, rfl, rfl, rfl, rfl⟩

/- ### C5 -/

/-- C5: the chat input's submit handler fires the send callback exactly when
the trimmed input is non-empty and the input is not disabled, and the string
it sends is the trimmed input; an empty or whitespace-only input (or a
disabled input) sends nothing. -/
theorem chat_input_sends_iff_trimmed_nonempty (input : String) (disabled : Bool)
    (s : String) :
    chatInputSubmit input disabled = some s ↔
      (jsTrim input ≠ "" ∧ disabled = false ∧ s = jsTrim input) := by
  unfold chatInputSubmit
  by_cases h1 : jsTrim input = "" <;> cases disabled <;> simp [h1, eq_comm]

/-- Witness for C5 at concrete inputs. -/
theorem chat_input_sends_iff_trimmed_nonempty_witness :
    chatInputSubmit "  hi there  " false = some "hi there" :=
  (chat_input_sends_iff_trimmed_nonempty "  hi there  " false "hi there").mpr
    (by refine ⟨by decide, rfl, by decide⟩)

/- ### C8 -/

/-- C8: for distinct workspace keys A ≠ B, storing a new message list under A
(`updateMessages`) and deleting workspace A (`handleDeleteWorkspace`) both
leave the chat history stored under B unchanged. -/
theorem workspace_ops_preserve_other_histories
    (st : ChatState) (msgs : Msgs) (A B : String) (v : List ChatMsg)
    (h : B ≠ A) :
    updateMessages msgs A v B = msgs B ∧
    (handleDeleteWorkspace st A).messages B = st.messages B := by
  constructor
  · simp [updateMessages, h]
  · simp [handleDeleteWorkspace, h]

/-- Witness for C8 at concrete inputs. -/
theorem workspace_ops_preserve_other_histories_witness :
    updateMessages (fun _ => none) "ws-a" [] "ws-b" = (fun _ => none : Msgs) "ws-b" ∧
    (handleDeleteWorkspace ⟨[], fun _ => none, none⟩ "ws-a").messages "ws-b" =
      (⟨[], fun _ => none, none⟩ : ChatState).messages "ws-b" :=
  workspace_ops_preserve_other_histories ⟨[], fun _ => none, none⟩
    (fun _ => none) "ws-a" "ws-b" [] (by decide)

/- ### C9 -/

/-- C9: both file-upload handlers invoke `uploadDocument` only for a selected
file whose MIME type is `application/pdf` or whose name ends in `.pdf` and
whose size is at most 10*1024*1024 bytes; for any selected file failing these
checks, no upload call is made and a validation message is shown instead. -/
theorem file_upload_validates_before_upload (f : FileData) (t : String) :
    (∀ t0 f0, handleFileChange (some f) t = .upload t0 f0 →
      (f.type = "application/pdf" ∨ jsEndsWith f.name ".pdf" = true) ∧
        f.size ≤ 10 * 1024 * 1024 ∧ t0 = t ∧ f0 = f) ∧
    (¬((f.type = "application/pdf" ∨ jsEndsWith f.name ".pdf" = true) ∧
        f.size ≤ 10 * 1024 * 1024) →
      ∃ msg, handleFileChange (some f) t = .reject msg) ∧
    (∀ t0 f0, handleFileChangeCompact (some f) t = .upload t0 f0 →
      (f.type = "application/pdf" ∨ jsEndsWith f.name ".pdf" = true) ∧
        f.size ≤ 10 * 1024 * 1024 ∧ t0 = t ∧ f0 = f) ∧
    (¬((f.type = "application/pdf" ∨ jsEndsWith f.name ".pdf" = true) ∧
        f.size ≤ 10 * 1024 * 1024) →
      ∃ msg, handleFileChangeCompact (some f) t = .reject msg) := by
  by_cases hty : f.type = "application/pdf" <;>
    by_cases hext : jsEndsWith f.name ".pdf" = true <;>
    by_cases hsz : f.size > 10 * 1024 * 1024 <;>
    by_cases htid : t = "" <;>
    simp [handleFileChange, handleFileChangeCompact, hty, hext, hsz, htid] <;>
    omega

/-- Witness for C9 at concrete inputs. -/
theorem file_upload_validates_before_upload_witness :
    (⟨"notes.pdf", "application/pdf", 4096⟩ : FileData).type = "application/pdf" ∧
    ∃ msg, handleFileChange (some ⟨"notes.txt", "text/plain", 4096⟩) "acme" =
      .reject msg :=
  ⟨rfl, (file_upload_validates_before_upload ⟨"notes.txt", "text/plain", 4096⟩
      "acme").2.1 (by decide)⟩

/- ### C2 -/

/-- C2 counterexample: on a failed query the chat page appends the failure
as a message whose `role` is `assistant` — it is rendered as an
assistant-row reply (with the error text as its content), not through a
separate non-assistant error channel, refuting the claim's "rather than as
an assistant reply" at this concrete input. -/
theorem query_failure_rendered_with_assistant_role :
    handleSendMessage (some "acme") (fun _ => none) "what is this"
        (fun _ => Outcome.err (some "boom")) "acme" =
      some [⟨Role.user, "what is this", none⟩,
            ⟨Role.assistant, "❌ Error: boom", none⟩] ∧
    (⟨Role.assistant, "❌ Error: boom", none⟩ : ChatMsg).role = Role.assistant := by
  constructor
  · simp [handleSendMessage, sendQuery, updateMessages]
  · rfl

/-- C2 (amended): whenever the query call fails, no answer is fabricated —
the chat page appends an assistant-role message whose content is the error
text prefixed with `❌ Error: ` and which carries no sources, and this
message differs from the message appended for any successful answer (which
always carries a `sources` field), so a failed query is distinguishable
from a normal successful answer. -/
theorem query_failure_surfaced_not_fabricated (ws question e : String) (msgs : Msgs) :
    ∃ hist,
      handleSendMessage (some ws) msgs question (fun _ => Outcome.err (some e)) ws =
        some hist ∧
      hist = (msgs ws).getD [] ++
        [⟨Role.user, question, none⟩, ⟨Role.assistant, "❌ Error: " ++ e, none⟩] ∧
      hist.getLast? = some ⟨Role.assistant, "❌ Error: " ++ e, none⟩ ∧
      (∀ d : QueryRespData, ∃ hist2,
        handleSendMessage (some ws) msgs question (fun _ => Outcome.ok d) ws =
          some hist2 ∧
        hist2.getLast? = some ⟨Role.assistant, d.answer, some d.sources⟩ ∧
        (⟨Role.assistant, "❌ Error: " ++ e, none⟩ : ChatMsg) ≠
          ⟨Role.assistant, d.answer, some d.sources⟩) := by
  refine ⟨(msgs ws).getD [] ++
    [⟨Role.user, question, none⟩, ⟨Role.assistant, "❌ Error: " ++ e, none⟩],
    ?_, rfl, ?_, ?_⟩
  · simp [handleSendMessage, sendQuery, updateMessages]
  · rw [List.getLast?_append_cons]; rfl
  · intro d
    refine ⟨(msgs ws).getD [] ++
      [⟨Role.user, question, none⟩, ⟨Role.assistant, d.answer, some d.sources⟩],
      ?_, ?_, ?_⟩
    · simp [handleSendMessage, sendQuery, updateMessages]
    · rw [List.getLast?_append_cons]; rfl
    · simp

/-- Witness for the amended C2 at concrete inputs. -/
theorem query_failure_surfaced_not_fabricated_witness :
    ∃ hist,
      handleSendMessage (some "acme") (fun _ => none) "q"
          (fun _ => Outcome.err (some "boom")) "acme" = some hist ∧
      hist = ((fun _ => none : Msgs) "acme").getD [] ++
        [⟨Role.user, "q", none⟩, ⟨Role.assistant, "❌ Error: " ++ "boom", none⟩] ∧
      hist.getLast? = some ⟨Role.assistant, "❌ Error: " ++ "boom", none⟩ ∧
      (∀ d : QueryRespData, ∃ hist2,
        handleSendMessage (some "acme") (fun _ => none) "q"
            (fun _ => Outcome.ok d) "acme" = some hist2 ∧
        hist2.getLast? = some ⟨Role.assistant, d.answer, some d.sources⟩ ∧
        (⟨Role.assistant, "❌ Error: " ++ "boom", none⟩ : ChatMsg) ≠
          ⟨Role.assistant, d.answer, some d.sources⟩) :=
  query_failure_surfaced_not_fabricated "acme" "q" "boom" (fun _ => none)

/- ### C6 -/

/-- C6: when `sendQuery` is called without an explicit `topK`, the request
body's `top_k` is the default 5; when a `topK` is supplied the body carries
exactly that value; the chat page's send handler queries the backend only
through the request carrying `top_k = 10`, which is within the configured
maximum of 20. -/
theorem send_query_top_k_default_and_chat_value
    (t q ws question : String) (k : Nat) (msgs : Msgs)
    (backend backend2 : ApiRequest → Outcome QueryRespData)
    (hagree : backend (sendQueryRequest ws question (some 10)) =
      backend2 (sendQueryRequest ws question (some 10))) :
    (sendQueryRequest t q none).body = some (.queryBody q 5) ∧
    (sendQueryRequest t q (some k)).body = some (.queryBody q k) ∧
    (sendQueryRequest ws question (some 10)).body = some (.queryBody question 10) ∧
    10 ≤ MAX_TOP_K ∧
    handleSendMessage (some ws) msgs question backend =
      handleSendMessage (some ws) msgs question backend2 := by
  refine ⟨rfl, rfl, rfl, by decide, ?_⟩
  simp only [handleSendMessage, sendQuery, hagree]

/-- Witness for C6 at concrete inputs. -/
theorem send_query_top_k_default_and_chat_value_witness :
    (sendQueryRequest "t" "q" none).body = some (.queryBody "q" 5) ∧
    (sendQueryRequest "t" "q" (some 7)).body = some (.queryBody "q" 7) ∧
    (sendQueryRequest "acme" "hello" (some 10)).body =
      some (.queryBody "hello" 10) ∧
    10 ≤ MAX_TOP_K ∧
    handleSendMessage (some "acme") (fun _ => none) "hello"
        (fun _ => Outcome.err none) =
      handleSendMessage (some "acme") (fun _ => none) "hello"
        (fun _ => Outcome.err none) :=
  send_query_top_k_default_and_chat_value "t" "q" "acme" "hello" 7
    (fun _ => none) (fun _ => Outcome.err none) (fun _ => Outcome.err none) rfl

/- ### C3 -/

/-- C3: a query against a tenant with zero stored chunks returns a successful
response whose source list is empty and whose answer is the canned
no-relevant-documents text, and the result does not depend on the generation
model — generation is never consulted. -/
theorem empty_tenant_query_canned_no_generation
    (store : List StoredRecord) (tenant question : String) (qv : List Int)
    (k : Nat) (sim : List Int → List Int → Int) (g g' : String → String)
    (h : tenantCount store tenant = 0) :
    queryOp store tenant question qv k sim g =
      { answer := noDataAnswer, sources := [] } ∧
    queryOp store tenant question qv k sim g =
      queryOp store tenant question qv k sim g' := by
  have hfilter : store.filter (fun r => r.tenant = tenant) = [] := by
    unfold tenantCount at h
    exact List.length_eq_zero.mp h
  constructor <;> simp [queryOp, searchTenant, hfilter, sortByScoreDesc]

/-- Witness for C3 at concrete inputs. -/
theorem empty_tenant_query_canned_no_generation_witness :
    queryOp [] "acme" "q" [] 5 (fun _ _ => 0) (fun _ => "GEN") =
      { answer := noDataAnswer, sources := [] } ∧
    queryOp [] "acme" "q" [] 5 (fun _ _ => 0) (fun _ => "GEN") =
      queryOp [] "acme" "q" [] 5 (fun _ _ => 0) (fun _ => "ALT") :=
  empty_tenant_query_canned_no_generation [] "acme" "q" [] 5 (fun _ _ => 0)
    (fun _ => "GEN") (fun _ => "ALT") rfl

/- ### C7 -/

/-- C7 counterexample: two sources identical except for their chunk index
render to the same source item in `ChatMessage` — the chunk index is not one
of the fields the chat UI reads to render an assistant message's source
list. -/
theorem chat_ui_rendering_ignores_chunk_index :
    renderSourceItem ⟨"chunk text", 50, ⟨some "doc.pdf", 0⟩⟩ 0 =
      renderSourceItem ⟨"chunk text", 50, ⟨some "doc.pdf", 99⟩⟩ 0 ∧
    (⟨"chunk text", 50, ⟨some "doc.pdf", 0⟩⟩ : UISource).metadata.chunk_index ≠
      (⟨"chunk text", 50, ⟨some "doc.pdf", 99⟩⟩ : UISource).metadata.chunk_index :=
  ⟨rfl, by decide⟩

/-- C7 (amended): every successful query response carries the generated
answer and the full list of retrieved sources, each with its text, filename,
chunk index and similarity score; of these the chat UI reads the text (item
tooltip), the filename (item name) and the score (match percentage) to
render a source item, while the chunk index is carried but not read by the
rendering. -/
theorem query_sources_complete_and_ui_fields
    (store : List StoredRecord) (tenant question : String) (qv : List Int)
    (k : Nat) (sim : List Int → List Int → Int) (generate : String → String)
    (h : searchTenant store tenant qv k sim ≠ []) :
    (queryOp store tenant question qv k sim generate).answer =
      generate (buildPrompt (buildContext (searchTenant store tenant qv k sim))
        question) ∧
    (queryOp store tenant question qv k sim generate).sources =
      (searchTenant store tenant qv k sim).map
        (fun p => ⟨p.1.text, p.1.filename, p.1.chunkIndex, p.2⟩) ∧
    (queryOp store tenant question qv k sim generate).sources.length =
      (searchTenant store tenant qv k sim).length ∧
    (∀ (s : UISource) (idx j : Nat),
      renderSourceItem { s with metadata := { s.metadata with chunk_index := j } }
          idx = renderSourceItem s idx) ∧
    (∀ (s : UISource) (idx : Nat),
      (renderSourceItem s idx).titleText = s.text ∧
      (renderSourceItem s idx).matchMeta = toString (s.score * 100) ++ "% match" ∧
      ∀ fn, s.metadata.filename = some fn → (renderSourceItem s idx).name = fn) := by
  have hne : (searchTenant store tenant qv k sim).isEmpty = false := by
    simpa [List.isEmpty_iff] using h
  refine ⟨?_, ?_, ?_, ?_, ?_⟩
  · simp [queryOp, hne]
  · simp [queryOp, hne]
  · simp [queryOp, hne]
  · intro s idx j; rfl
  · intro s idx
    exact ⟨rfl, rfl, fun fn hfn => by simp [renderSourceItem, hfn]⟩

/-- Witness for the amended C7 at concrete inputs. -/
theorem query_sources_complete_and_ui_fields_witness :
    (queryOp [⟨"acme", "c1", [1], "doc.pdf", 0, "hello"⟩] "acme" "q" [1] 5
        (fun _ _ => 1) (fun _ => "GEN")).answer =
      (fun _ => "GEN")
        (buildPrompt
          (buildContext (searchTenant [⟨"acme", "c1", [1], "doc.pdf", 0, "hello"⟩]
            "acme" [1] 5 (fun _ _ => 1))) "q") ∧
    (queryOp [⟨"acme", "c1", [1], "doc.pdf", 0, "hello"⟩] "acme" "q" [1] 5
        (fun _ _ => 1) (fun _ => "GEN")).sources =
      (searchTenant [⟨"acme", "c1", [1], "doc.pdf", 0, "hello"⟩] "acme" [1] 5
        (fun _ _ => 1)).map
          (fun p => ⟨p.1.text, p.1.filename, p.1.chunkIndex, p.2⟩) ∧
    (queryOp [⟨"acme", "c1", [1], "doc.pdf", 0, "hello"⟩] "acme" "q" [1] 5
        (fun _ _ => 1) (fun _ => "GEN")).sources.length =
      (searchTenant [⟨"acme", "c1", [1], "doc.pdf", 0, "hello"⟩] "acme" [1] 5
        (fun _ _ => 1)).length ∧
    (∀ (s : UISource) (idx j : Nat),
      renderSourceItem { s with metadata := { s.metadata with chunk_index := j } }
          idx = renderSourceItem s idx) ∧
    (∀ (s : UISource) (idx : Nat),
      (renderSourceItem s idx).titleText = s.text ∧
      (renderSourceItem s idx).matchMeta = toString (s.score * 100) ++ "% match" ∧
      ∀ fn, s.metadata.filename = some fn → (renderSourceItem s idx).name = fn) :=
  query_sources_complete_and_ui_fields
    [⟨"acme", "c1", [1], "doc.pdf", 0, "hello"⟩] "acme" "q" [1] 5
    (fun _ _ => 1) (fun _ => "GEN") (by decide)

/- ### C4 -/

theorem trimChars_length_le (l : List Char) : (trimChars l).length ≤ l.length := by
  unfold trimChars
  calc ((l.dropWhile Char.isWhitespace).reverse.dropWhile
          Char.isWhitespace).reverse.length
      = ((l.dropWhile Char.isWhitespace).reverse.dropWhile
          Char.isWhitespace).length := List.length_reverse _
    _ ≤ (l.dropWhile Char.isWhitespace).reverse.length :=
        List.Sublist.length_le (List.dropWhile_sublist _)
    _ = (l.dropWhile Char.isWhitespace).length := List.length_reverse _
    _ ≤ l.length := List.Sublist.length_le (List.dropWhile_sublist _)

theorem findBackFrom_lt (p : Nat → Bool) (n i : Nat)
    (h : findBackFrom p n = some i) : i < n := by
  induction n with
  | zero => simp [findBackFrom] at h
  | succ m ih =>
    unfold findBackFrom at h
    by_cases hp : p m = true
    · rw [if_pos hp] at h
      injection h with h
      omega
    · rw [if_neg hp] at h
      have := ih h
      omega

theorem cutPoint_le (rem : List Char) (maxLen overlap : Nat) :
    cutPoint rem maxLen overlap ≤ maxLen := by
  unfold cutPoint
  cases hs : sentCut rem maxLen overlap with
  | some i =>
    unfold sentCut at hs
    have := findBackFrom_lt _ _ _ hs
    dsimp only
    omega
  | none =>
    cases hw : wsCut rem maxLen with
    | some i =>
      unfold wsCut at hw
      have := findBackFrom_lt _ _ _ hw
      dsimp only
      omega
    | none =>
      dsimp only
      exact Nat.le_refl _

theorem segmentGo_chunk_length_le (maxLen overlap : Nat) (rem : List Char) :
    ∀ c ∈ segmentGo maxLen overlap rem, c.length ≤ maxLen := by
  generalize hn : rem.length = n
  induction n using Nat.strong_induction_on generalizing rem with
  | _ n ih =>
    intro c hc
    rw [segmentGo] at hc
    by_cases h : rem.length ≤ maxLen
    · rw [dif_pos h] at hc
      by_cases he : (trimChars rem).isEmpty
      · rw [if_pos he] at hc
        simp at hc
      · rw [if_neg he] at hc
        rcases List.mem_singleton.mp hc with rfl
        calc (trimChars rem).length ≤ rem.length := trimChars_length_le rem
          _ ≤ maxLen := h
    · rw [dif_neg h] at hc
      rcases List.mem_cons.mp hc with rfl | hc2
      · calc (trimChars (rem.take (cutPoint rem maxLen overlap))).length
            ≤ (rem.take (cutPoint rem maxLen overlap)).length :=
              trimChars_length_le _
          _ ≤ cutPoint rem maxLen overlap := by simp [List.length_take]
          _ ≤ maxLen := cutPoint_le rem maxLen overlap
      · have hlt : (rem.drop
            (max 1 (cutPoint rem maxLen overlap - overlap))).length < n := by
          rw [List.length_drop]
          omega
        exact ih _ (hn ▸ hlt) _ rfl c hc2

/-- C4: for every input text and every configuration with `overlap` strictly
less than `maxLen`, every chunk produced by the TextSegmenter has length at
most `maxLen`, including for inputs with no whitespace at all. -/
theorem segment_chunk_length_bound (text : List Char) (maxLen overlap : Nat)
    (chunks : List (List Char)) (h : overlap < maxLen)
    (hseg : segmentText text maxLen overlap = some chunks) :
    ∀ c ∈ chunks, c.length ≤ maxLen := by
  unfold segmentText at hseg
  rw [if_pos h] at hseg
  injection hseg with hseg
  exact hseg ▸ segmentGo_chunk_length_le maxLen overlap text

theorem segmentGo_concrete_run :
    segmentGo 5 2 ['a', 'b', 'c', 'd', 'e', 'f', 'g', 'h', 'i', 'j'] =
      [['a', 'b', 'c', 'd', 'e'], ['d', 'e', 'f', 'g', 'h'],
       ['g', 'h', 'i', 'j']] := by
  have step1 : segmentGo 5 2 ['a', 'b', 'c', 'd', 'e', 'f', 'g', 'h', 'i', 'j'] =
      ['a', 'b', 'c', 'd', 'e'] ::
        segmentGo 5 2 ['d', 'e', 'f', 'g', 'h', 'i', 'j'] := by
    have h2 : List.drop
        (max 1 (cutPoint ['a', 'b', 'c', 'd', 'e', 'f', 'g', 'h', 'i', 'j'] 5 2 - 2))
        ['a', 'b', 'c', 'd', 'e', 'f', 'g', 'h', 'i', 'j'] =
        ['d', 'e', 'f', 'g', 'h', 'i', 'j'] := by decide
    have h1 : trimChars
        (List.take (cutPoint ['a', 'b', 'c', 'd', 'e', 'f', 'g', 'h', 'i', 'j'] 5 2)
          ['a', 'b', 'c', 'd', 'e', 'f', 'g', 'h', 'i', 'j']) =
        ['a', 'b', 'c', 'd', 'e'] := by decide
    rw [segmentGo, dif_neg (by decide), h2, h1]
  have step2 : segmentGo 5 2 ['d', 'e', 'f', 'g', 'h', 'i', 'j'] =
      ['d', 'e', 'f', 'g', 'h'] :: segmentGo 5 2 ['g', 'h', 'i', 'j'] := by
    have h2 : List.drop
        (max 1 (cutPoint ['d', 'e', 'f', 'g', 'h', 'i', 'j'] 5 2 - 2))
        ['d', 'e', 'f', 'g', 'h', 'i', 'j'] = ['g', 'h', 'i', 'j'] := by decide
    have h1 : trimChars
        (List.take (cutPoint ['d', 'e', 'f', 'g', 'h', 'i', 'j'] 5 2)
          ['d', 'e', 'f', 'g', 'h', 'i', 'j']) = ['d', 'e', 'f', 'g', 'h'] := by
      decide
    rw [segmentGo, dif_neg (by decide), h2, h1]
  have step3 : segmentGo 5 2 ['g', 'h', 'i', 'j'] = [['g', 'h', 'i', 'j']] := by
    rw [segmentGo, dif_pos (by decide), if_neg (by decide)]
    decide
  rw [step1, step2, step3]

theorem segmentText_concrete_run :
    segmentText ['a', 'b', 'c', 'd', 'e', 'f', 'g', 'h', 'i', 'j'] 5 2 =
      some [['a', 'b', 'c', 'd', 'e'], ['d', 'e', 'f', 'g', 'h'],
            ['g', 'h', 'i', 'j']] := by
  rw [segmentText, if_pos (by decide), segmentGo_concrete_run]

/-- Witness for C4 at a concrete pathological whitespace-free input: the
hypotheses of the bound theorem hold for the ten-character input `abcdefghij`
with `maxLen = 5`, `overlap = 2`, and the bound applies to its first chunk. -/
theorem segment_chunk_length_bound_witness :
    (['a', 'b', 'c', 'd', 'e'] : List Char).length ≤ 5 :=
  segment_chunk_length_bound ['a', 'b', 'c', 'd', 'e', 'f', 'g', 'h', 'i', 'j']
    5 2
    [['a', 'b', 'c', 'd', 'e'], ['d', 'e', 'f', 'g', 'h'], ['g', 'h', 'i', 'j']]
    (by decide) segmentText_concrete_run ['a', 'b', 'c', 'd', 'e']
    (by decide)
